import Mathlib

/-!
Verification of a student-loan repayment simulator.

The program converts annual salary and RPI (inflation) projections into
monthly series, applies threshold-based interest and installment formulas,
and amortizes an outstanding balance month by month over a fixed horizon.
The embedding below models the four modules over exact rational arithmetic:
month helpers (`calculate_months_difference`, `extrapolate_array`), the
per-month formulas (`calculate_annual_interest_rate`,
`calculate_monthly_installment`, `calculate_monthly_interest`), the
annual-to-monthly transformers (`get_monthly_salary_array`,
`get_monthly_interest_rate_array`) and the amortization loop
(`simulate_repayment`).  Fallible operations (month-name parsing, indexing,
last-element access) return `Option`.

Note on aliasing in the source: `get_monthly_salary_array` pads its input
list in place, so by the time `simulate_repayment` builds the interest-rate
array the salary list may already have been padded to 31 entries.  This is
observationally irrelevant: the rate computation reads only indices 0..30,
and those entries coincide whether the list was pre-padded to 31 entries or
extrapolated to 32, since both paddings replicate the same last element.
The pure model therefore passes the original list to both transformers.
-/

namespace StudentLoan

/-- A month reference as accepted by the program: either a full month name
string or an integer (1..12 when valid). -/
inductive MonthRef where
  | name (s : String)
  | num (n : Int)
deriving DecidableEq

/-- Month-name parsing, as performed by `datetime.strptime(s, "%B")` on the
full month names used by the program (lowercase form). -/
def month_from_name (s : String) : Option Int :=
  match s with
  | "january" => some 1
  | "february" => some 2
  | "march" => some 3
  | "april" => some 4
  | "may" => some 5
  | "june" => some 6
  | "july" => some 7
  | "august" => some 8
  | "september" => some 9
  | "october" => some 10
  | "november" => some 11
  | "december" => some 12
  | _ => none

/-- Normalization applied by `calculate_months_difference`: strings are
parsed into month numbers, integers pass through unchanged. -/
def normalize_month : MonthRef → Option Int
  | .name s => month_from_name s
  | .num n => some n

/-- A valid month reference: a recognized full month name, or an integer in
1..12. -/
def MonthRef.valid : MonthRef → Prop
  | .name s => (month_from_name s).isSome = true
  | .num n => 1 ≤ n ∧ n ≤ 12

instance (m : MonthRef) : Decidable m.valid :=
  match m with
  | .name s => inferInstanceAs (Decidable ((month_from_name s).isSome = true))
  | .num n => inferInstanceAs (Decidable (1 ≤ n ∧ n ≤ 12))

/-- Threshold above which the interest premium starts accruing. -/
def LOWER_INCOME_THRESHOLD : ℚ := 27295

/-- Threshold above which the annualized interest premium is maximal. -/
def UPPER_INCOME_THRESHOLD : ℚ := 49130

/-- Maximum percentage premium by which the interest can increase. -/
def INTEREST_PREMIUM : ℚ := 3

/-- Percentage of salary above the threshold deducted. -/
def STUDENT_TAX : ℚ := 9

/-- Years until the debt is written off in full (spelling as in the source). -/
def RELIEF_PERDIOD : Nat := 30

/-- Annual interest rate: RPI plus a premium of up to `INTEREST_PREMIUM`
points scaled linearly between the two income thresholds, optionally
clamped by a cap. -/
def calculate_annual_interest_rate (base_salary rpi : ℚ)
    (max_interest_cap : Option ℚ) : ℚ :=
  let interest_rate :=
    if LOWER_INCOME_THRESHOLD < base_salary then
      rpi + INTEREST_PREMIUM *
        min 1 ((base_salary - LOWER_INCOME_THRESHOLD) /
          (UPPER_INCOME_THRESHOLD - LOWER_INCOME_THRESHOLD))
    else rpi
  match max_interest_cap with
  | some cap => min interest_rate cap
  | none => interest_rate

/-- Monthly installment: `STUDENT_TAX` percent of the salary earned above
one twelfth of the lower income threshold. -/
def calculate_monthly_installment (monthly_salary : ℚ) : ℚ :=
  let taxable_salary := max 0 (monthly_salary - LOWER_INCOME_THRESHOLD / 12)
  taxable_salary * STUDENT_TAX / 100

/-- Interest added to the balance in one month, from the monthly rate in
percent. -/
def calculate_monthly_interest (total_balance monthly_interest : ℚ) : ℚ :=
  total_balance * monthly_interest / 100

/-- Months from `current_month` until `target_month`, computed as
`(target - current) mod 12` with a zero result bumped to 12.  `none` when a
month name fails to parse. -/
def calculate_months_difference (current_month target_month : MonthRef) :
    Option Int :=
  match normalize_month current_month, normalize_month target_month with
  | some c, some t =>
    let months_remaining := (t - c) % 12
    if months_remaining = 0 then some (months_remaining + 12)
    else some months_remaining
  | _, _ => none

/-- Extrapolation of a list to a desired length based on its last value:
when the list is shorter than `length`, `length - len + 1` copies of the
last element are appended (one more than a naive pad).  `none` when the
list is empty and padding is demanded (no last element). -/
def extrapolate_array (arr : List ℚ) (length : Nat) : Option (List ℚ) :=
  if arr.length < length then
    match arr.getLast? with
    | some last =>
        some (arr ++ List.replicate (length - arr.length + 1) last)
    | none => none
  else some arr

/-- The body of the layout loops in the transformers: each annual value in
the tail contributes a block of 12 copies of its monthly equivalent
(`value / 12`), in order. -/
def monthly_blocks (annual_values : List ℚ) : List ℚ :=
  match annual_values with
  | [] => []
  | v :: rest => List.replicate 12 (v / 12) ++ monthly_blocks rest

/-- The annual-rate loop of `get_monthly_interest_rate_array`: starting at
index `i`, appends `calculate_annual_interest_rate salaries[j] rpis[j]`
(no cap) for the next `n` indices, failing on an out-of-range access. -/
def annual_rates_loop (salaries rpis : List ℚ) : Nat → Nat → Option (List ℚ)
  | _, 0 => some []
  | i, n + 1 =>
    match salaries[i]?, rpis[i]? with
    | some s, some r =>
      match annual_rates_loop salaries rpis (i + 1) n with
      | some rest => some (calculate_annual_interest_rate s r none :: rest)
      | none => none
    | _, _ => none

/-- Monthly interest-rate series: extrapolates both annual vectors to 31
entries, computes 31 annual rates, then lays out `monthsToSeptember`
copies of the first monthly rate followed by 12-month blocks for each
subsequent year. -/
def get_monthly_interest_rate_array (annual_salaries annual_rpis : List ℚ)
    (current_month : MonthRef) : Option (List ℚ) :=
  match extrapolate_array annual_salaries (RELIEF_PERDIOD + 1),
      extrapolate_array annual_rpis (RELIEF_PERDIOD + 1) with
  | some salaries, some rpis =>
    match annual_rates_loop salaries rpis 0 (RELIEF_PERDIOD + 1) with
    | some annual_interest_rates =>
      match calculate_months_difference current_month
          (MonthRef.name "september"), annual_interest_rates with
      | some months_to_sept, first :: rest =>
        some (List.replicate months_to_sept.toNat (first / 12) ++
          monthly_blocks rest)
      | _, _ => none
    | none => none
  | _, _ => none

/-- Monthly salary series: pads the annual vector in place with
`RELIEF_PERDIOD - len + 1` copies of its last element when shorter than 31
entries (reaching exactly 31), then lays out `monthsToPayReview` copies of
the first monthly salary followed by 12-month blocks for each subsequent
year. -/
def get_monthly_salary_array (annual_salaries : List ℚ)
    (current_month salary_revision_month : MonthRef) : Option (List ℚ) :=
  match
    (if annual_salaries.length < RELIEF_PERDIOD + 1 then
      match annual_salaries.getLast? with
      | some last =>
        some (annual_salaries ++
          List.replicate (RELIEF_PERDIOD - annual_salaries.length + 1) last)
      | none => none
    else some annual_salaries) with
  | some salaries =>
    match calculate_months_difference current_month salary_revision_month,
        salaries with
    | some months_to_pay_review, first :: rest =>
      some (List.replicate months_to_pay_review.toNat (first / 12) ++
        monthly_blocks rest)
    | _, _ => none
  | none => none

/-- The amortization loop of `simulate_repayment`: starting from month `i`
with the given balance, runs `n` further months; each month accrues
interest, adds any discretionary amount to the installment, caps the
repayment at `balance + interest`, updates the balance, and records
repayment, interest and post-update balance, in month order. -/
def sim_steps (monthly_salaries monthly_interest_rates : List ℚ)
    (discretionary_repayments : Nat → Option ℚ) :
    ℚ → Nat → Nat → Option (List ℚ × List ℚ × List ℚ)
  | _, _, 0 => some ([], [], [])
  | loan_outstanding, i, n + 1 =>
    match monthly_interest_rates[i]?, monthly_salaries[i]? with
    | some rate, some sal =>
      let interest := calculate_monthly_interest loan_outstanding rate
      let installment := calculate_monthly_installment sal +
        (discretionary_repayments i).getD 0
      let repayment := min installment (loan_outstanding + interest)
      let new_balance := loan_outstanding + interest - repayment
      match sim_steps monthly_salaries monthly_interest_rates
          discretionary_repayments new_balance (i + 1) n with
      | some (rs, ins, bs) =>
        some (repayment :: rs, interest :: ins, new_balance :: bs)
      | none => none
    | _, _ => none

/-- The repayment simulation: builds the monthly salary series (with the
default revision month, April) and the monthly interest-rate series, then
runs the amortization loop for `months_to_relief` months from month 0. -/
def simulate_repayment (loan_outstanding : ℚ)
    (annual_rpis annual_salaries : List ℚ) (current_month : MonthRef)
    (months_to_relief : Nat) (discretionary_repayments : Nat → Option ℚ) :
    Option (List ℚ × List ℚ × List ℚ) :=
  match get_monthly_salary_array annual_salaries current_month
      (MonthRef.name "april"),
      get_monthly_interest_rate_array annual_salaries annual_rpis
        current_month with
  | some monthly_salaries, some monthly_interest_rates =>
    sim_steps monthly_salaries monthly_interest_rates
      discretionary_repayments loan_outstanding 0 months_to_relief
  | _, _ => none

/-- Modelled from the spec text of the loop, for comparison with
`sim_steps`: the month-`k` installment is the income-based installment on
the month-`k` salary plus the discretionary amount for month `k` (zero
when absent). -/
def spec_installment (sal d : Nat → ℚ) (k : Nat) : ℚ :=
  calculate_monthly_installment (sal k) + d k

/-- Modelled from the spec text of the loop, for comparison with
`sim_steps`: the recorded balance before month `k`, following the
recurrence `balance_0 = loan`,
`balance_{k+1} = balance_k + interest_k - repayment_k` with
`interest_k = balance_k * rate_k / 100` and
`repayment_k = min installment_k (balance_k + interest_k)`. -/
def spec_balance (loan : ℚ) (rate sal d : Nat → ℚ) : Nat → ℚ
  | 0 => loan
  | k + 1 =>
    spec_balance loan rate sal d k +
        calculate_monthly_interest (spec_balance loan rate sal d k) (rate k) -
      min (spec_installment sal d k)
        (spec_balance loan rate sal d k +
          calculate_monthly_interest (spec_balance loan rate sal d k) (rate k))

/-- Modelled from the spec text of the loop: the interest accrued in month
`k`, `balance_k * rate_k / 100`. -/
def spec_interest (loan : ℚ) (rate sal d : Nat → ℚ) (k : Nat) : ℚ :=
  calculate_monthly_interest (spec_balance loan rate sal d k) (rate k)

/-- Modelled from the spec text of the loop: the repayment made in month
`k`, the installment capped at `balance_k + interest_k`. -/
def spec_repayment (loan : ℚ) (rate sal d : Nat → ℚ) (k : Nat) : ℚ :=
  min (spec_installment sal d k)
    (spec_balance loan rate sal d k + spec_interest loan rate sal d k)

end StudentLoan

namespace StudentLoan

/-- Claim C3: for every non-empty sequence and target length, when
`len(values) >= length` the sequence is returned unchanged (never
truncated); when `len(values) < length` the result is the original elements
followed by exactly `length - len(values) + 1` copies of the last element,
so the resulting length is `length + 1`. -/
theorem C3_extrapolate_array_shape (values : List ℚ) (hne : values ≠ [])
    (len : Nat) :
    (len ≤ values.length → extrapolate_array values len = some values) ∧
    (values.length < len →
      ∃ out, extrapolate_array values len = some out ∧
        out = values ++
          List.replicate (len - values.length + 1) (values.getLast hne) ∧
        out.length = len + 1) := by
  constructor
  · intro h
    unfold extrapolate_array
    rw [if_neg (by omega)]
  · intro h
    refine ⟨values ++
      List.replicate (len - values.length + 1) (values.getLast hne),
      ?_, rfl, ?_⟩
    · unfold extrapolate_array
      rw [if_pos h, List.getLast?_eq_getLast values hne]
    · rw [List.length_append, List.length_replicate]
      omega

/-- Witness for C3 at a concrete input. -/
theorem C3_extrapolate_array_shape_witness :
    (3 ≤ ([1, 2, 3] : List ℚ).length →
      extrapolate_array [1, 2, 3] 3 = some [1, 2, 3]) ∧
    (([1, 2, 3] : List ℚ).length < 3 →
      ∃ out, extrapolate_array [1, 2, 3] 3 = some out ∧
        out = [1, 2, 3] ++ List.replicate (3 - ([1, 2, 3] : List ℚ).length + 1)
          (([1, 2, 3] : List ℚ).getLast (by decide)) ∧
        out.length = 3 + 1) :=
  C3_extrapolate_array_shape [1, 2, 3] (by decide) 3

/-- Claim C5: with no cap and fixed rpi, the annual interest rate is
monotonically non-decreasing in salary, equals `rpi` exactly at or below
the lower threshold 27295, and equals `rpi + 3` exactly at or above the
upper threshold 49130. -/
theorem C5_annual_interest_rate_monotone_and_thresholds :
    (∀ rpi s1 s2 : ℚ, s1 ≤ s2 →
      calculate_annual_interest_rate s1 rpi none ≤
        calculate_annual_interest_rate s2 rpi none) ∧
    (∀ rpi s : ℚ, s ≤ 27295 →
      calculate_annual_interest_rate s rpi none = rpi) ∧
    (∀ rpi s : ℚ, 49130 ≤ s →
      calculate_annual_interest_rate s rpi none = rpi + 3) := by
  refine ⟨?_, ?_, ?_⟩
  · intro rpi s1 s2 h
    unfold calculate_annual_interest_rate LOWER_INCOME_THRESHOLD
      UPPER_INCOME_THRESHOLD INTEREST_PREMIUM
    by_cases h1 : (27295 : ℚ) < s1
    · rw [if_pos h1, if_pos (lt_of_lt_of_le h1 h)]
      have hq : (s1 - 27295) / (49130 - 27295) ≤
          (s2 - 27295) / (49130 - 27295) := by
        apply div_le_div_of_nonneg_right ?_ ?_ <;> linarith
      nlinarith [min_le_min (le_refl (1 : ℚ)) hq]
    · rw [if_neg h1]
      by_cases h2 : (27295 : ℚ) < s2
      · rw [if_pos h2]
        have hq : (0 : ℚ) ≤ (s2 - 27295) / (49130 - 27295) := by
          apply div_nonneg <;> linarith
        have hm : (0 : ℚ) ≤ min 1 ((s2 - 27295) / (49130 - 27295)) :=
          le_min (by norm_num) hq
        linarith
      · rw [if_neg h2]
  · intro rpi s h
    unfold calculate_annual_interest_rate LOWER_INCOME_THRESHOLD
    rw [if_neg (by linarith)]
  · intro rpi s h
    unfold calculate_annual_interest_rate LOWER_INCOME_THRESHOLD
      UPPER_INCOME_THRESHOLD INTEREST_PREMIUM
    rw [if_pos (by linarith)]
    have h1 : (1 : ℚ) ≤ (s - 27295) / (49130 - 27295) := by
      rw [le_div_iff₀ (by norm_num)]
      linarith
    rw [min_eq_left h1]
    ring

/-- Witness for C5 at concrete inputs. -/
theorem C5_annual_interest_rate_witness :
    calculate_annual_interest_rate 20000 2 none ≤
      calculate_annual_interest_rate 30000 2 none ∧
    calculate_annual_interest_rate 27295 2 none = 2 ∧
    calculate_annual_interest_rate 49130 2 none = 2 + 3 :=
  ⟨C5_annual_interest_rate_monotone_and_thresholds.1 2 20000 30000
      (by norm_num),
    C5_annual_interest_rate_monotone_and_thresholds.2.1 2 27295 le_rfl,
    C5_annual_interest_rate_monotone_and_thresholds.2.2 2 49130 le_rfl⟩

/-- Claim C6: the monthly installment equals
`max 0 (monthlySalary - 27295/12) * 9 / 100`; it is exactly zero at or
below the threshold `27295/12` and linear with slope `9/100` above it. -/
theorem C6_monthly_installment_formula :
    (∀ s : ℚ, calculate_monthly_installment s =
      max 0 (s - 27295 / 12) * 9 / 100) ∧
    (∀ s : ℚ, s ≤ 27295 / 12 → calculate_monthly_installment s = 0) ∧
    (∀ s : ℚ, 27295 / 12 ≤ s →
      calculate_monthly_installment s = (s - 27295 / 12) * (9 / 100)) := by
  refine ⟨?_, ?_, ?_⟩
  · intro s
    rfl
  · intro s h
    unfold calculate_monthly_installment LOWER_INCOME_THRESHOLD STUDENT_TAX
    rw [max_eq_left (by linarith)]
    norm_num
  · intro s h
    unfold calculate_monthly_installment LOWER_INCOME_THRESHOLD STUDENT_TAX
    rw [max_eq_right (by linarith)]
    ring

/-- Witness for C6 at concrete inputs. -/
theorem C6_monthly_installment_witness :
    calculate_monthly_installment 3000 = max 0 (3000 - 27295 / 12) * 9 / 100 ∧
    calculate_monthly_installment 2000 = 0 ∧
    calculate_monthly_installment 3000 = (3000 - 27295 / 12) * (9 / 100) :=
  ⟨C6_monthly_installment_formula.1 3000,
    C6_monthly_installment_formula.2.1 2000 (by norm_num),
    C6_monthly_installment_formula.2.2 3000 (by norm_num)⟩

/-- Claim C8: for valid month references, `calculate_months_difference`
returns `(target - current) mod 12` with a zero result mapped to 12; the
result always lies in 1..12, and the difference from a month to itself is
12, never 0. -/
theorem C8_months_difference_formula :
    (∀ c t : MonthRef, c.valid → t.valid →
      ∃ cn tn r, normalize_month c = some cn ∧ normalize_month t = some tn ∧
        calculate_months_difference c t = some r ∧
        r = (if (tn - cn) % 12 = 0 then 12 else (tn - cn) % 12) ∧
        1 ≤ r ∧ r ≤ 12) ∧
    (∀ m : MonthRef, m.valid → calculate_months_difference m m = some 12) := by
  have hnorm : ∀ m : MonthRef, m.valid → ∃ k, normalize_month m = some k := by
    intro m hv
    cases m with
    | name s =>
      cases hh : month_from_name s with
      | none =>
        exfalso
        simp only [MonthRef.valid, hh, Option.isSome_none] at hv
        exact Bool.false_ne_true hv
      | some k => exact ⟨k, by simp [normalize_month, hh]⟩
    | num n => exact ⟨n, rfl⟩
  have hmain : ∀ c t : MonthRef, c.valid → t.valid →
      ∃ cn tn r, normalize_month c = some cn ∧ normalize_month t = some tn ∧
        calculate_months_difference c t = some r ∧
        r = (if (tn - cn) % 12 = 0 then 12 else (tn - cn) % 12) ∧
        1 ≤ r ∧ r ≤ 12 := by
    intro c t hc ht
    obtain ⟨cn, hcn⟩ := hnorm c hc
    obtain ⟨tn, htn⟩ := hnorm t ht
    have hnonneg : 0 ≤ (tn - cn) % 12 := Int.emod_nonneg _ (by norm_num)
    have hlt : (tn - cn) % 12 < 12 := Int.emod_lt_of_pos _ (by norm_num)
    refine ⟨cn, tn, if (tn - cn) % 12 = 0 then 12 else (tn - cn) % 12,
      hcn, htn, ?_, rfl, ?_, ?_⟩
    · simp only [calculate_months_difference, hcn, htn]
      by_cases h0 : (tn - cn) % 12 = 0
      · simp [h0]
      · simp [h0]
    · by_cases h0 : (tn - cn) % 12 = 0
      · rw [if_pos h0]; norm_num
      · rw [if_neg h0]; omega
    · by_cases h0 : (tn - cn) % 12 = 0
      · rw [if_pos h0]
      · rw [if_neg h0]; omega
  refine ⟨hmain, ?_⟩
  intro m hv
  obtain ⟨cn, tn, r, hcn, htn, heq, hr, _, _⟩ := hmain m m hv hv
  rw [heq, hr]
  rw [hcn] at htn
  have : tn = cn := (Option.some.inj htn).symm
  subst this
  simp

/-- Witness for C8 at a concrete valid month. -/
theorem C8_months_difference_witness :
    (∃ cn tn r, normalize_month (MonthRef.num 3) = some cn ∧
      normalize_month (MonthRef.name "september") = some tn ∧
      calculate_months_difference (MonthRef.num 3)
        (MonthRef.name "september") = some r ∧
      r = (if (tn - cn) % 12 = 0 then 12 else (tn - cn) % 12) ∧
      1 ≤ r ∧ r ≤ 12) ∧
    calculate_months_difference (MonthRef.name "april")
      (MonthRef.name "april") = some 12 :=
  ⟨C8_months_difference_formula.1 (MonthRef.num 3)
      (MonthRef.name "september") (by decide) (by decide),
    C8_months_difference_formula.2 (MonthRef.name "april") (by decide)⟩

/-- Counterexample to claim C9 as stated: at target length 0 the empty
sequence does not fail; `extrapolate_array` returns it unchanged, because
the padding branch is only entered when the current length is strictly
below the target. -/
theorem C9_counterexample_empty_length_zero :
    extrapolate_array ([] : List ℚ) 0 = some [] := rfl

/-- Claim C9 amended: the empty sequence fails (returns `none`) exactly for
positive target lengths; for target length 0 it is returned unchanged; a
non-empty sequence never fails, for any target length. -/
theorem C9_extrapolate_error_behaviour :
    (∀ len : Nat, 1 ≤ len → extrapolate_array ([] : List ℚ) len = none) ∧
    (extrapolate_array ([] : List ℚ) 0 = some []) ∧
    (∀ (arr : List ℚ), arr ≠ [] → ∀ len : Nat,
      ∃ out, extrapolate_array arr len = some out) := by
  refine ⟨?_, rfl, ?_⟩
  · intro len hlen
    unfold extrapolate_array
    rw [if_pos (by simpa using hlen)]
    rfl
  · intro arr hne len
    unfold extrapolate_array
    by_cases h : arr.length < len
    · rw [if_pos h, List.getLast?_eq_getLast arr hne]
      exact ⟨_, rfl⟩
    · rw [if_neg h]
      exact ⟨arr, rfl⟩

/-- Witness for the amended C9 at concrete inputs. -/
theorem C9_extrapolate_error_behaviour_witness :
    extrapolate_array ([] : List ℚ) 5 = none ∧
    ∃ out, extrapolate_array [7] 5 = some out :=
  ⟨C9_extrapolate_error_behaviour.1 5 (by norm_num),
    C9_extrapolate_error_behaviour.2.2 [7] (by decide) 5⟩

end StudentLoan

namespace StudentLoan

theorem monthly_blocks_length (l : List ℚ) :
    (monthly_blocks l).length = 12 * l.length := by
  induction l with
  | nil => rfl
  | cons v rest ih =>
    simp only [monthly_blocks, List.length_append, List.length_replicate,
      List.length_cons, ih]
    ring

theorem exists_normalize_of_valid {m : MonthRef} (h : m.valid) :
    ∃ k, normalize_month m = some k := by
  cases m with
  | name s =>
    cases hh : month_from_name s with
    | none =>
      exfalso
      simp only [MonthRef.valid, hh, Option.isSome_none] at h
      exact Bool.false_ne_true h
    | some k => exact ⟨k, by simp [normalize_month, hh]⟩
  | num n => exact ⟨n, rfl⟩

theorem months_difference_bounds {c t : MonthRef} (hc : c.valid)
    (ht : t.valid) :
    ∃ m, calculate_months_difference c t = some m ∧ 1 ≤ m ∧ m ≤ 12 := by
  obtain ⟨cn, hcn⟩ := exists_normalize_of_valid hc
  obtain ⟨tn, htn⟩ := exists_normalize_of_valid ht
  have hnonneg : 0 ≤ (tn - cn) % 12 := Int.emod_nonneg _ (by norm_num)
  have hlt : (tn - cn) % 12 < 12 := Int.emod_lt_of_pos _ (by norm_num)
  refine ⟨if (tn - cn) % 12 = 0 then (tn - cn) % 12 + 12
    else (tn - cn) % 12, ?_, ?_, ?_⟩
  · simp only [calculate_months_difference, hcn, htn]
    by_cases h0 : (tn - cn) % 12 = 0 <;> simp [h0]
  · split <;> omega
  · split <;> omega

theorem extrapolate_array_total (arr : List ℚ) (L : Nat) (hne : arr ≠ []) :
    ∃ out, extrapolate_array arr L = some out ∧ L ≤ out.length ∧
      out ≠ [] := by
  unfold extrapolate_array
  by_cases h : arr.length < L
  · rw [if_pos h, List.getLast?_eq_getLast arr hne]
    refine ⟨_, rfl, ?_, ?_⟩
    · simp only [List.length_append, List.length_replicate]
      omega
    · intro hcontra
      exact hne (List.append_eq_nil.mp hcontra).1
  · rw [if_neg h]
    exact ⟨arr, rfl, by omega, hne⟩

theorem annual_rates_loop_total (salaries rpis : List ℚ) :
    ∀ n i, i + n ≤ salaries.length → i + n ≤ rpis.length →
    ∃ l, annual_rates_loop salaries rpis i n = some l ∧ l.length = n := by
  intro n
  induction n with
  | zero => exact fun i _ _ => ⟨[], rfl, rfl⟩
  | succ k ih =>
    intro i h1 h2
    obtain ⟨s, hs⟩ : ∃ s, salaries[i]? = some s :=
      ⟨_, List.getElem?_eq_getElem (by omega)⟩
    obtain ⟨r, hr⟩ : ∃ r, rpis[i]? = some r :=
      ⟨_, List.getElem?_eq_getElem (by omega)⟩
    obtain ⟨rest, hrest, hlen⟩ := ih (i + 1) (by omega) (by omega)
    refine ⟨calculate_annual_interest_rate s r none :: rest, ?_, ?_⟩
    · simp only [annual_rates_loop, hs, hr, hrest]
    · simp [hlen]

theorem get_monthly_salary_array_spec (annual_salaries : List ℚ)
    (cm rev : MonthRef) (hne : annual_salaries ≠ []) (hcm : cm.valid)
    (hrev : rev.valid) :
    ∃ out m, calculate_months_difference cm rev = some m ∧ 1 ≤ m ∧ m ≤ 12 ∧
      get_monthly_salary_array annual_salaries cm rev = some out ∧
      361 ≤ out.length ∧
      (annual_salaries.length ≤ RELIEF_PERDIOD + 1 →
        out.length = m.toNat + 360) := by
  have hR : RELIEF_PERDIOD = 30 := rfl
  obtain ⟨m, hm, hm1, hm12⟩ := months_difference_bounds hcm hrev
  obtain ⟨a, tail, rfl⟩ := List.exists_cons_of_ne_nil hne
  by_cases hlen : (a :: tail).length < RELIEF_PERDIOD + 1
  · have hlast : (a :: tail).getLast? = some ((a :: tail).getLast hne) :=
      List.getLast?_eq_getLast _ hne
    refine ⟨List.replicate m.toNat (a / 12) ++
      monthly_blocks (tail ++
        List.replicate (RELIEF_PERDIOD - (a :: tail).length + 1)
          ((a :: tail).getLast hne)),
      m, hm, hm1, hm12, ?_, ?_, ?_⟩
    · simp only [get_monthly_salary_array, if_pos hlen, hlast,
        List.cons_append, hm]
    · simp only [List.length_append, List.length_replicate,
        monthly_blocks_length, List.length_cons]
      simp only [List.length_cons] at hlen
      omega
    · intro _
      simp only [List.length_append, List.length_replicate,
        monthly_blocks_length, List.length_cons]
      simp only [List.length_cons] at hlen
      omega
  · refine ⟨List.replicate m.toNat (a / 12) ++ monthly_blocks tail,
      m, hm, hm1, hm12, ?_, ?_, ?_⟩
    · simp only [get_monthly_salary_array, if_neg hlen, hm]
    · simp only [List.length_append, List.length_replicate,
        monthly_blocks_length]
      simp only [List.length_cons] at hlen
      omega
    · intro hle
      simp only [List.length_append, List.length_replicate,
        monthly_blocks_length]
      simp only [List.length_cons] at hlen
      simp only [List.length_cons] at hle
      omega

theorem get_monthly_interest_rate_array_spec
    (annual_salaries annual_rpis : List ℚ) (cm : MonthRef)
    (h1 : annual_salaries ≠ []) (h2 : annual_rpis ≠ []) (hcm : cm.valid) :
    ∃ out m,
      calculate_months_difference cm (MonthRef.name "september") = some m ∧
      1 ≤ m ∧ m ≤ 12 ∧
      get_monthly_interest_rate_array annual_salaries annual_rpis cm =
        some out ∧
      out.length = m.toNat + 360 := by
  have hR : RELIEF_PERDIOD = 30 := rfl
  obtain ⟨sal, hsal, hsallen, _⟩ :=
    extrapolate_array_total annual_salaries (RELIEF_PERDIOD + 1) h1
  obtain ⟨rp, hrp, hrplen, _⟩ :=
    extrapolate_array_total annual_rpis (RELIEF_PERDIOD + 1) h2
  have hsept : (MonthRef.name "september").valid := by decide
  obtain ⟨m, hm, hm1, hm12⟩ := months_difference_bounds hcm hsept
  obtain ⟨rates, hrates, hrateslen⟩ :=
    annual_rates_loop_total sal rp (RELIEF_PERDIOD + 1) 0 (by omega)
      (by omega)
  have hratesne : rates ≠ [] := by
    intro hnil
    rw [hnil] at hrateslen
    simp [hR] at hrateslen
  obtain ⟨first, rest, rfl⟩ := List.exists_cons_of_ne_nil hratesne
  have hrestlen : rest.length = 30 := by
    simp only [List.length_cons, hR] at hrateslen
    omega
  refine ⟨List.replicate m.toNat (first / 12) ++ monthly_blocks rest,
    m, hm, hm1, hm12, ?_, ?_⟩
  · simp only [get_monthly_interest_rate_array, hsal, hrp, hrates, hm]
  · simp only [List.length_append, List.length_replicate,
      monthly_blocks_length, hrestlen]

/-- Claim C4: for non-empty annual vectors, a valid current month and at
most 31 annual salary entries, the monthly salary and interest-rate series
each consist of a leading block of `monthsToBoundary` entries (a value in
1..12 from `calculate_months_difference`) followed by a 12-entry block per
subsequent year, giving length exactly `monthsToBoundary + 360`, hence at
least 360. -/
theorem C4_monthly_series_lengths (annual_salaries annual_rpis : List ℚ)
    (cm : MonthRef) (h1 : annual_salaries ≠ []) (h2 : annual_rpis ≠ [])
    (hcm : cm.valid) (hlen : annual_salaries.length ≤ 31) :
    ∃ sals rates ms mr,
      calculate_months_difference cm (MonthRef.name "april") = some ms ∧
      1 ≤ ms ∧ ms ≤ 12 ∧
      calculate_months_difference cm (MonthRef.name "september") = some mr ∧
      1 ≤ mr ∧ mr ≤ 12 ∧
      get_monthly_salary_array annual_salaries cm (MonthRef.name "april") =
        some sals ∧
      get_monthly_interest_rate_array annual_salaries annual_rpis cm =
        some rates ∧
      sals.length = ms.toNat + 360 ∧ rates.length = mr.toNat + 360 ∧
      360 ≤ sals.length ∧ 360 ≤ rates.length := by
  have hapril : (MonthRef.name "april").valid := by decide
  obtain ⟨sals, ms, hms, hms1, hms12, hsals, hsals361, hsalsexact⟩ :=
    get_monthly_salary_array_spec annual_salaries cm (MonthRef.name "april")
      h1 hcm hapril
  obtain ⟨rates, mr, hmr, hmr1, hmr12, hrates, hrateslen⟩ :=
    get_monthly_interest_rate_array_spec annual_salaries annual_rpis cm h1
      h2 hcm
  refine ⟨sals, rates, ms, mr, hms, hms1, hms12, hmr, hmr1, hmr12, hsals,
    hrates, hsalsexact (by simpa [RELIEF_PERDIOD] using hlen), ?_, ?_, ?_⟩
  · exact hrateslen
  · omega
  · omega

/-- Witness for C4 at concrete inputs. -/
theorem C4_monthly_series_lengths_witness :
    ∃ sals rates ms mr,
      calculate_months_difference (MonthRef.num 1) (MonthRef.name "april") =
        some ms ∧
      1 ≤ ms ∧ ms ≤ 12 ∧
      calculate_months_difference (MonthRef.num 1)
        (MonthRef.name "september") = some mr ∧
      1 ≤ mr ∧ mr ≤ 12 ∧
      get_monthly_salary_array [30000] (MonthRef.num 1)
        (MonthRef.name "april") = some sals ∧
      get_monthly_interest_rate_array [30000] [2] (MonthRef.num 1) =
        some rates ∧
      sals.length = ms.toNat + 360 ∧ rates.length = mr.toNat + 360 ∧
      360 ≤ sals.length ∧ 360 ≤ rates.length :=
  C4_monthly_series_lengths [30000] [2] (MonthRef.num 1) (by decide)
    (by decide) (by decide) (by decide)

end StudentLoan

namespace StudentLoan

theorem spec_balance_succ (loan : ℚ) (r s dd : Nat → ℚ) (k : Nat) :
    spec_balance loan r s dd (k + 1) =
      spec_balance loan r s dd k +
          calculate_monthly_interest (spec_balance loan r s dd k) (r k) -
        min (calculate_monthly_installment (s k) + dd k)
          (spec_balance loan r s dd k +
            calculate_monthly_interest (spec_balance loan r s dd k) (r k)) := by
  simp [spec_balance, spec_installment]

theorem calculate_monthly_installment_nonneg (s : ℚ) :
    0 ≤ calculate_monthly_installment s := by
  show 0 ≤ max 0 (s - LOWER_INCOME_THRESHOLD / 12) * STUDENT_TAX / 100
  apply div_nonneg ?_ (by norm_num)
  apply mul_nonneg (le_max_left 0 _) (by norm_num [STUDENT_TAX])

theorem amortization_step_max (a b c : ℚ) :
    a + b - min c (a + b) = max (a + b - c) 0 := by
  rcases le_total c (a + b) with h | h
  · rw [min_eq_left h, max_eq_left (by linarith : (0 : ℚ) ≤ a + b - c)]
  · rw [min_eq_right h, max_eq_right (by linarith : a + b - c ≤ 0)]
    ring

theorem getD_range_map (g : Nat → ℚ) (n k : Nat) (hk : k < n) :
    ((List.range n).map g).getD k 0 = g k := by
  rw [List.getD_eq_getElem?_getD, List.getElem?_map, List.getElem?_range hk]
  rfl

theorem sim_steps_refines_spec (sals rates : List ℚ) (d : Nat → Option ℚ)
    (loan : ℚ) (r s : Nat → ℚ)
    (hr : ∀ k, k < rates.length → rates[k]? = some (r k))
    (hs : ∀ k, k < sals.length → sals[k]? = some (s k)) :
    ∀ n i, i + n ≤ sals.length → i + n ≤ rates.length →
    sim_steps sals rates d (spec_balance loan r s (fun k => (d k).getD 0) i)
        i n =
      some
        ((List.range' i n).map
          (spec_repayment loan r s (fun k => (d k).getD 0)),
        (List.range' i n).map
          (spec_interest loan r s (fun k => (d k).getD 0)),
        (List.range' i n).map
          (fun t => spec_balance loan r s (fun k => (d k).getD 0) (t + 1))) := by
  intro n
  induction n with
  | zero =>
    intro i _ _
    simp [sim_steps]
  | succ nn ih =>
    intro i hsl hrl
    have hri := hr i (by omega)
    have hsi := hs i (by omega)
    have hrec := ih (i + 1) (by omega) (by omega)
    simp only [sim_steps, hri, hsi]
    rw [← spec_balance_succ loan r s (fun k => (d k).getD 0) i, hrec]
    rw [List.range'_succ, List.map_cons, List.map_cons, List.map_cons]
    simp [spec_repayment, spec_interest, spec_installment]

end StudentLoan

namespace StudentLoan

theorem getElem?_eq_some_getD (l : List ℚ) (k : Nat) (hk : k < l.length) :
    l[k]? = some (l.getD k 0) := by
  rw [List.getElem?_eq_getElem hk, List.getD_eq_getElem?_getD,
    List.getElem?_eq_getElem hk]
  rfl

theorem getD_range'_map (g : Nat → ℚ) (n k : Nat) (hk : k < n) :
    ((List.range' 0 n).map g).getD k 0 = g k := by
  rw [← List.range_eq_range', getD_range_map g n k hk]

/-- Claim C1: for every initial balance, non-empty annual vectors, valid
current month, horizon at most 360 and discretionary map, the simulation
runs exactly `months_to_relief` iterations in month order, following the
spec recurrence (`spec_interest`, `spec_repayment`, `spec_balance` over
the monthly series), and returns three parallel sequences of length
exactly `months_to_relief` — repayments, interest, and post-update
balances — with no early termination when the balance reaches zero. -/
theorem C1_simulation_follows_spec_recurrence (loan : ℚ)
    (annual_rpis annual_salaries : List ℚ) (cm : MonthRef) (n : Nat)
    (d : Nat → Option ℚ) (h1 : annual_salaries ≠ []) (h2 : annual_rpis ≠ [])
    (hcm : cm.valid) (hn : n ≤ 360) :
    ∃ monthly_sals monthly_rates,
      get_monthly_salary_array annual_salaries cm (MonthRef.name "april") =
        some monthly_sals ∧
      get_monthly_interest_rate_array annual_salaries annual_rpis cm =
        some monthly_rates ∧
      simulate_repayment loan annual_rpis annual_salaries cm n d =
        some
          ((List.range n).map
            (spec_repayment loan (fun j => monthly_rates.getD j 0)
              (fun j => monthly_sals.getD j 0) (fun j => (d j).getD 0)),
          (List.range n).map
            (spec_interest loan (fun j => monthly_rates.getD j 0)
              (fun j => monthly_sals.getD j 0) (fun j => (d j).getD 0)),
          (List.range n).map
            (fun t => spec_balance loan (fun j => monthly_rates.getD j 0)
              (fun j => monthly_sals.getD j 0) (fun j => (d j).getD 0)
              (t + 1))) := by
  have hapril : (MonthRef.name "april").valid := by decide
  obtain ⟨monthly_sals, ms, _, hms1, _, hsals, hsals361, _⟩ :=
    get_monthly_salary_array_spec annual_salaries cm (MonthRef.name "april")
      h1 hcm hapril
  obtain ⟨monthly_rates, mr, _, hmr1, _, hrates, hrateslen⟩ :=
    get_monthly_interest_rate_array_spec annual_salaries annual_rpis cm h1
      h2 hcm
  refine ⟨monthly_sals, monthly_rates, hsals, hrates, ?_⟩
  have hmain := sim_steps_refines_spec monthly_sals monthly_rates d loan
    (fun j => monthly_rates.getD j 0) (fun j => monthly_sals.getD j 0)
    (fun j hj => getElem?_eq_some_getD monthly_rates j hj)
    (fun j hj => getElem?_eq_some_getD monthly_sals j hj)
    n 0 (by omega) (by omega)
  simp only [simulate_repayment, hsals, hrates]
  rw [List.range_eq_range']
  exact hmain

/-- Witness for C1 at concrete inputs. -/
theorem C1_simulation_follows_spec_recurrence_witness :
    ∃ monthly_sals monthly_rates,
      get_monthly_salary_array [30000] (MonthRef.num 1)
        (MonthRef.name "april") = some monthly_sals ∧
      get_monthly_interest_rate_array [30000] [2] (MonthRef.num 1) =
        some monthly_rates ∧
      simulate_repayment 1000 [2] [30000] (MonthRef.num 1) 2
        (fun _ => none) =
        some
          ((List.range 2).map
            (spec_repayment 1000 (fun j => monthly_rates.getD j 0)
              (fun j => monthly_sals.getD j 0)
              (fun j => ((fun _ => (none : Option ℚ)) j).getD 0)),
          (List.range 2).map
            (spec_interest 1000 (fun j => monthly_rates.getD j 0)
              (fun j => monthly_sals.getD j 0)
              (fun j => ((fun _ => (none : Option ℚ)) j).getD 0)),
          (List.range 2).map
            (fun t => spec_balance 1000 (fun j => monthly_rates.getD j 0)
              (fun j => monthly_sals.getD j 0)
              (fun j => ((fun _ => (none : Option ℚ)) j).getD 0) (t + 1))) :=
  C1_simulation_follows_spec_recurrence 1000 [2] [30000] (MonthRef.num 1) 2
    (fun _ => none) (by decide) (by decide) (by decide) (by norm_num)

theorem spec_balance_succ_nonneg (loan : ℚ) (r s dd : Nat → ℚ) (k : Nat) :
    0 ≤ spec_balance loan r s dd (k + 1) := by
  rw [spec_balance_succ]
  have := min_le_right (calculate_monthly_installment (s k) + dd k)
    (spec_balance loan r s dd k +
      calculate_monthly_interest (spec_balance loan r s dd k) (r k))
  linarith

/-- Claim C2: for a nonnegative initial balance and a discretionary map
with nonnegative amounts, every element of the returned balance sequence
is nonnegative, for all salary and interest-rate inputs (including
negative rates); equivalently each recorded balance equals
`max (balance + interest - installment) 0`. -/
theorem C2_balance_never_negative (loan : ℚ)
    (annual_rpis annual_salaries : List ℚ) (cm : MonthRef) (n : Nat)
    (d : Nat → Option ℚ) (hloan : 0 ≤ loan)
    (hd : ∀ i x, d i = some x → 0 ≤ x) (h1 : annual_salaries ≠ [])
    (h2 : annual_rpis ≠ []) (hcm : cm.valid) (hn : n ≤ 360) :
    ∃ rs ins bs monthly_sals monthly_rates,
      get_monthly_salary_array annual_salaries cm (MonthRef.name "april") =
        some monthly_sals ∧
      get_monthly_interest_rate_array annual_salaries annual_rpis cm =
        some monthly_rates ∧
      simulate_repayment loan annual_rpis annual_salaries cm n d =
        some (rs, ins, bs) ∧
      (∀ b ∈ bs, 0 ≤ b) ∧
      (∀ k, k < n →
        bs.getD k 0 =
          max (spec_balance loan (fun j => monthly_rates.getD j 0)
              (fun j => monthly_sals.getD j 0) (fun j => (d j).getD 0) k +
            spec_interest loan (fun j => monthly_rates.getD j 0)
              (fun j => monthly_sals.getD j 0) (fun j => (d j).getD 0) k -
            spec_installment (fun j => monthly_sals.getD j 0)
              (fun j => (d j).getD 0) k) 0) := by
  have hapril : (MonthRef.name "april").valid := by decide
  obtain ⟨monthly_sals, ms, _, hms1, _, hsals, hsals361, _⟩ :=
    get_monthly_salary_array_spec annual_salaries cm (MonthRef.name "april")
      h1 hcm hapril
  obtain ⟨monthly_rates, mr, _, hmr1, _, hrates, hrateslen⟩ :=
    get_monthly_interest_rate_array_spec annual_salaries annual_rpis cm h1
      h2 hcm
  have hmain := sim_steps_refines_spec monthly_sals monthly_rates d loan
    (fun j => monthly_rates.getD j 0) (fun j => monthly_sals.getD j 0)
    (fun j hj => getElem?_eq_some_getD monthly_rates j hj)
    (fun j hj => getElem?_eq_some_getD monthly_sals j hj)
    n 0 (by omega) (by omega)
  refine ⟨(List.range' 0 n).map
      (spec_repayment loan (fun j => monthly_rates.getD j 0)
        (fun j => monthly_sals.getD j 0) (fun j => (d j).getD 0)),
    (List.range' 0 n).map
      (spec_interest loan (fun j => monthly_rates.getD j 0)
        (fun j => monthly_sals.getD j 0) (fun j => (d j).getD 0)),
    (List.range' 0 n).map
      (fun t => spec_balance loan (fun j => monthly_rates.getD j 0)
        (fun j => monthly_sals.getD j 0) (fun j => (d j).getD 0) (t + 1)),
    monthly_sals, monthly_rates, hsals, hrates, ?_, ?_, ?_⟩
  · simp only [simulate_repayment, hsals, hrates]
    exact hmain
  · intro b hb
    obtain ⟨t, _, rfl⟩ := List.mem_map.mp hb
    exact spec_balance_succ_nonneg loan _ _ _ t
  · intro k hk
    rw [getD_range'_map _ n k hk, spec_balance_succ, amortization_step_max]
    rfl

/-- Witness for C2 at concrete inputs. -/
theorem C2_balance_never_negative_witness :
    ∃ rs ins bs monthly_sals monthly_rates,
      get_monthly_salary_array [30000] (MonthRef.num 1)
        (MonthRef.name "april") = some monthly_sals ∧
      get_monthly_interest_rate_array [30000] [2] (MonthRef.num 1) =
        some monthly_rates ∧
      simulate_repayment 1000 [2] [30000] (MonthRef.num 1) 2
        (fun _ => none) = some (rs, ins, bs) ∧
      (∀ b ∈ bs, 0 ≤ b) ∧
      (∀ k, k < 2 →
        bs.getD k 0 =
          max (spec_balance 1000 (fun j => monthly_rates.getD j 0)
              (fun j => monthly_sals.getD j 0)
              (fun j => ((fun _ => (none : Option ℚ)) j).getD 0) k +
            spec_interest 1000 (fun j => monthly_rates.getD j 0)
              (fun j => monthly_sals.getD j 0)
              (fun j => ((fun _ => (none : Option ℚ)) j).getD 0) k -
            spec_installment (fun j => monthly_sals.getD j 0)
              (fun j => ((fun _ => (none : Option ℚ)) j).getD 0) k) 0) :=
  C2_balance_never_negative 1000 [2] [30000] (MonthRef.num 1) 2
    (fun _ => none) (by norm_num) (fun i x h => nomatch h) (by decide)
    (by decide) (by decide) (by norm_num)

end StudentLoan

namespace StudentLoan

theorem spec_balance_absorbing (loan : ℚ) (r s dd : Nat → ℚ) (k : Nat)
    (hdd : ∀ j, k < j → 0 ≤ dd j)
    (hz : spec_balance loan r s dd (k + 1) = 0) :
    ∀ j, k + 1 ≤ j → spec_balance loan r s dd j = 0 := by
  intro j hj
  induction j, hj using Nat.le_induction with
  | base => exact hz
  | succ m hm ih =>
    have hinst : 0 ≤ calculate_monthly_installment (s m) + dd m :=
      add_nonneg (calculate_monthly_installment_nonneg _) (hdd m (by omega))
    rw [spec_balance_succ, ih]
    simp only [calculate_monthly_interest, zero_mul, zero_div, add_zero,
      zero_add]
    rw [min_eq_right hinst]
    ring

/-- Claim C10: zero is absorbing for the amortization loop.  If the
recorded balance after month `k` is exactly 0 and all discretionary
amounts for later months are nonnegative, then every later month records
zero interest, zero repayment, and a balance of exactly 0, regardless of
the interest rates (including negative ones) and salaries of those
months. -/
theorem C10_zero_balance_absorbing (loan : ℚ)
    (annual_rpis annual_salaries : List ℚ) (cm : MonthRef) (n k : Nat)
    (d : Nat → Option ℚ) (h1 : annual_salaries ≠ []) (h2 : annual_rpis ≠ [])
    (hcm : cm.valid) (hn : n ≤ 360) (hk : k < n)
    (hd : ∀ j x, k < j → d j = some x → 0 ≤ x) :
    ∃ rs ins bs,
      simulate_repayment loan annual_rpis annual_salaries cm n d =
        some (rs, ins, bs) ∧
      (bs.getD k 0 = 0 →
        ∀ j, k < j → j < n →
          ins.getD j 0 = 0 ∧ rs.getD j 0 = 0 ∧ bs.getD j 0 = 0) := by
  have hapril : (MonthRef.name "april").valid := by decide
  obtain ⟨monthly_sals, ms, _, hms1, _, hsals, hsals361, _⟩ :=
    get_monthly_salary_array_spec annual_salaries cm (MonthRef.name "april")
      h1 hcm hapril
  obtain ⟨monthly_rates, mr, _, hmr1, _, hrates, hrateslen⟩ :=
    get_monthly_interest_rate_array_spec annual_salaries annual_rpis cm h1
      h2 hcm
  have hmain := sim_steps_refines_spec monthly_sals monthly_rates d loan
    (fun j => monthly_rates.getD j 0) (fun j => monthly_sals.getD j 0)
    (fun j hj => getElem?_eq_some_getD monthly_rates j hj)
    (fun j hj => getElem?_eq_some_getD monthly_sals j hj)
    n 0 (by omega) (by omega)
  refine ⟨(List.range' 0 n).map
      (spec_repayment loan (fun j => monthly_rates.getD j 0)
        (fun j => monthly_sals.getD j 0) (fun j => (d j).getD 0)),
    (List.range' 0 n).map
      (spec_interest loan (fun j => monthly_rates.getD j 0)
        (fun j => monthly_sals.getD j 0) (fun j => (d j).getD 0)),
    (List.range' 0 n).map
      (fun t => spec_balance loan (fun j => monthly_rates.getD j 0)
        (fun j => monthly_sals.getD j 0) (fun j => (d j).getD 0) (t + 1)),
    ?_, ?_⟩
  · simp only [simulate_repayment, hsals, hrates]
    exact hmain
  · intro hzero j hj hjn
    rw [getD_range'_map _ n k hk] at hzero
    have hdd : ∀ jj, k < jj → 0 ≤ (d jj).getD 0 := by
      intro jj hjj
      cases hdj : d jj with
      | none => simp
      | some x => simpa using hd jj x hjj hdj
    have habs := spec_balance_absorbing loan
      (fun j => monthly_rates.getD j 0) (fun j => monthly_sals.getD j 0)
      (fun j => (d j).getD 0) k hdd hzero
    have hbalj : spec_balance loan (fun j => monthly_rates.getD j 0)
        (fun j => monthly_sals.getD j 0) (fun j => (d j).getD 0) j = 0 :=
      habs j (by omega)
    have hinstj : 0 ≤ calculate_monthly_installment (monthly_sals.getD j 0) +
        (d j).getD 0 :=
      add_nonneg (calculate_monthly_installment_nonneg _) (hdd j hj)
    refine ⟨?_, ?_, ?_⟩
    · rw [getD_range'_map _ n j hjn]
      unfold spec_interest
      rw [hbalj]
      simp [calculate_monthly_interest]
    · rw [getD_range'_map _ n j hjn]
      unfold spec_repayment spec_interest spec_installment
      rw [hbalj]
      simp only [calculate_monthly_interest, zero_mul, zero_div, add_zero]
      exact min_eq_right hinstj
    · rw [getD_range'_map _ n j hjn]
      exact habs (j + 1) (by omega)

/-- Witness for C10 at concrete inputs. -/
theorem C10_zero_balance_absorbing_witness :
    ∃ rs ins bs,
      simulate_repayment 0 [0] [30000] (MonthRef.num 1) 2 (fun _ => none) =
        some (rs, ins, bs) ∧
      (bs.getD 0 0 = 0 →
        ∀ j, 0 < j → j < 2 →
          ins.getD j 0 = 0 ∧ rs.getD j 0 = 0 ∧ bs.getD j 0 = 0) :=
  C10_zero_balance_absorbing 0 [0] [30000] (MonthRef.num 1) 2 0
    (fun _ => none) (by decide) (by decide) (by decide) (by norm_num)
    (by norm_num) (fun j x _ h => nomatch h)

theorem spec_balance_congr (loan : ℚ) (r s dd1 dd2 : Nat → ℚ) :
    ∀ m, (∀ j, j < m → dd1 j = dd2 j) →
      spec_balance loan r s dd1 m = spec_balance loan r s dd2 m := by
  intro m
  induction m with
  | zero => intro _; rfl
  | succ mm ih =>
    intro h
    rw [spec_balance_succ, spec_balance_succ,
      ih (fun j hj => h j (by omega)), h mm (by omega)]

theorem spec_interest_congr (loan : ℚ) (r s dd1 dd2 : Nat → ℚ) (m : Nat)
    (h : ∀ j, j < m → dd1 j = dd2 j) :
    spec_interest loan r s dd1 m = spec_interest loan r s dd2 m := by
  unfold spec_interest
  rw [spec_balance_congr loan r s dd1 dd2 m h]

theorem spec_repayment_congr (loan : ℚ) (r s dd1 dd2 : Nat → ℚ) (m : Nat)
    (h : ∀ j, j ≤ m → dd1 j = dd2 j) :
    spec_repayment loan r s dd1 m = spec_repayment loan r s dd2 m := by
  unfold spec_repayment spec_interest spec_installment
  rw [spec_balance_congr loan r s dd1 dd2 m (fun j hj => h j (by omega)),
    h m le_rfl]

end StudentLoan

namespace StudentLoan

set_option maxRecDepth 1000000 in
unseal Rat.mul Rat.inv Rat.add Rat.sub in
/-- Counterexample to claim C7 as stated: the exact-increase property
fails for a negative discretionary amount.  With a zero balance, zero RPI
and annual salary 28495 (monthly installment 9), adding the entry
`0 -> -9` leaves the cap-inactive condition satisfied
(`installment + X = 9 - 9 = 0 <= 0 = balance + interest`), yet the
recorded repayment at month 0 is 0 in both runs, and `0 ≠ 0 + (-9)`. -/
theorem C7_counterexample_negative_amount :
    simulate_repayment 0 [0] [28495] (MonthRef.num 1) 1
      (fun j => if j = 0 then some (-9) else none) = some ([0], [0], [0]) ∧
    simulate_repayment 0 [0] [28495] (MonthRef.num 1) 1 (fun _ => none) =
      some ([0], [0], [0]) ∧
    calculate_monthly_installment (28495 / 12) + (-9) ≤ 0 + 0 ∧
    ¬ ((0 : ℚ) = 0 + (-9)) := by decide

/-- Claim C7 amended: the exact-increase property holds for nonnegative
amounts X.  Comparing the run whose discretionary map has entry `k -> X`
(X ≥ 0) against the otherwise identical run without an entry at `k`: all
recorded values for months before `k` coincide, and when the repayment cap
is inactive at month `k` in the run with the entry
(`installment_k + X ≤ balance_k + interest_k`), the recorded repayment at
month `k` in that run exceeds the one without the entry by exactly X. -/
theorem C7_discretionary_exact_increase (loan X : ℚ)
    (annual_rpis annual_salaries : List ℚ) (cm : MonthRef) (n k : Nat)
    (d1 d2 : Nat → Option ℚ) (h1 : annual_salaries ≠ [])
    (h2 : annual_rpis ≠ []) (hcm : cm.valid) (hn : n ≤ 360) (hk : k < n)
    (hX : 0 ≤ X) (hd1 : d1 k = some X) (hd2 : d2 k = none)
    (hagree : ∀ j, j ≠ k → d1 j = d2 j) :
    ∃ rs1 ins1 bs1 rs2 ins2 bs2 monthly_sals monthly_rates,
      get_monthly_salary_array annual_salaries cm (MonthRef.name "april") =
        some monthly_sals ∧
      get_monthly_interest_rate_array annual_salaries annual_rpis cm =
        some monthly_rates ∧
      simulate_repayment loan annual_rpis annual_salaries cm n d1 =
        some (rs1, ins1, bs1) ∧
      simulate_repayment loan annual_rpis annual_salaries cm n d2 =
        some (rs2, ins2, bs2) ∧
      (∀ j, j < k →
        rs1.getD j 0 = rs2.getD j 0 ∧ ins1.getD j 0 = ins2.getD j 0 ∧
          bs1.getD j 0 = bs2.getD j 0) ∧
      (spec_installment (fun j => monthly_sals.getD j 0)
          (fun j => (d1 j).getD 0) k ≤
        spec_balance loan (fun j => monthly_rates.getD j 0)
            (fun j => monthly_sals.getD j 0) (fun j => (d1 j).getD 0) k +
          spec_interest loan (fun j => monthly_rates.getD j 0)
            (fun j => monthly_sals.getD j 0) (fun j => (d1 j).getD 0) k →
        rs1.getD k 0 = rs2.getD k 0 + X) := by
  have hapril : (MonthRef.name "april").valid := by decide
  obtain ⟨monthly_sals, ms, _, hms1, _, hsals, hsals361, _⟩ :=
    get_monthly_salary_array_spec annual_salaries cm (MonthRef.name "april")
      h1 hcm hapril
  obtain ⟨monthly_rates, mr, _, hmr1, _, hrates, hrateslen⟩ :=
    get_monthly_interest_rate_array_spec annual_salaries annual_rpis cm h1
      h2 hcm
  have hmain1 := sim_steps_refines_spec monthly_sals monthly_rates d1 loan
    (fun j => monthly_rates.getD j 0) (fun j => monthly_sals.getD j 0)
    (fun j hj => getElem?_eq_some_getD monthly_rates j hj)
    (fun j hj => getElem?_eq_some_getD monthly_sals j hj)
    n 0 (by omega) (by omega)
  have hmain2 := sim_steps_refines_spec monthly_sals monthly_rates d2 loan
    (fun j => monthly_rates.getD j 0) (fun j => monthly_sals.getD j 0)
    (fun j hj => getElem?_eq_some_getD monthly_rates j hj)
    (fun j hj => getElem?_eq_some_getD monthly_sals j hj)
    n 0 (by omega) (by omega)
  have hDDlt : ∀ j, j < k → (d1 j).getD 0 = (d2 j).getD 0 := by
    intro j hj
    rw [hagree j (by omega)]
  have hDD1k : (d1 k).getD 0 = X := by rw [hd1]; rfl
  have hDD2k : (d2 k).getD 0 = 0 := by rw [hd2]; rfl
  refine ⟨(List.range' 0 n).map
      (spec_repayment loan (fun j => monthly_rates.getD j 0)
        (fun j => monthly_sals.getD j 0) (fun j => (d1 j).getD 0)),
    (List.range' 0 n).map
      (spec_interest loan (fun j => monthly_rates.getD j 0)
        (fun j => monthly_sals.getD j 0) (fun j => (d1 j).getD 0)),
    (List.range' 0 n).map
      (fun t => spec_balance loan (fun j => monthly_rates.getD j 0)
        (fun j => monthly_sals.getD j 0) (fun j => (d1 j).getD 0) (t + 1)),
    (List.range' 0 n).map
      (spec_repayment loan (fun j => monthly_rates.getD j 0)
        (fun j => monthly_sals.getD j 0) (fun j => (d2 j).getD 0)),
    (List.range' 0 n).map
      (spec_interest loan (fun j => monthly_rates.getD j 0)
        (fun j => monthly_sals.getD j 0) (fun j => (d2 j).getD 0)),
    (List.range' 0 n).map
      (fun t => spec_balance loan (fun j => monthly_rates.getD j 0)
        (fun j => monthly_sals.getD j 0) (fun j => (d2 j).getD 0) (t + 1)),
    monthly_sals, monthly_rates, hsals, hrates, ?_, ?_, ?_, ?_⟩
  · simp only [simulate_repayment, hsals, hrates]
    exact hmain1
  · simp only [simulate_repayment, hsals, hrates]
    exact hmain2
  · intro j hj
    refine ⟨?_, ?_, ?_⟩
    · rw [getD_range'_map _ n j (by omega), getD_range'_map _ n j (by omega)]
      exact spec_repayment_congr loan _ _ _ _ j
        (fun jj hjj => hDDlt jj (by omega))
    · rw [getD_range'_map _ n j (by omega), getD_range'_map _ n j (by omega)]
      exact spec_interest_congr loan _ _ _ _ j
        (fun jj hjj => hDDlt jj (by omega))
    · rw [getD_range'_map _ n j (by omega), getD_range'_map _ n j (by omega)]
      exact spec_balance_congr loan (fun j => monthly_rates.getD j 0)
        (fun j => monthly_sals.getD j 0) (fun j => (d1 j).getD 0)
        (fun j => (d2 j).getD 0) (j + 1) (fun jj hjj => hDDlt jj (by omega))
  · intro hcap
    rw [getD_range'_map _ n k hk, getD_range'_map _ n k hk]
    have hbal_eq : spec_balance loan (fun j => monthly_rates.getD j 0)
        (fun j => monthly_sals.getD j 0) (fun j => (d2 j).getD 0) k =
        spec_balance loan (fun j => monthly_rates.getD j 0)
          (fun j => monthly_sals.getD j 0) (fun j => (d1 j).getD 0) k :=
      (spec_balance_congr loan _ _ _ _ k (fun jj hjj => hDDlt jj hjj)).symm
    have hint_eq : spec_interest loan (fun j => monthly_rates.getD j 0)
        (fun j => monthly_sals.getD j 0) (fun j => (d2 j).getD 0) k =
        spec_interest loan (fun j => monthly_rates.getD j 0)
          (fun j => monthly_sals.getD j 0) (fun j => (d1 j).getD 0) k :=
      (spec_interest_congr loan _ _ _ _ k (fun jj hjj => hDDlt jj hjj)).symm
    unfold spec_repayment
    rw [hbal_eq, hint_eq, min_eq_left hcap]
    have hinst1 : spec_installment (fun j => monthly_sals.getD j 0)
        (fun j => (d1 j).getD 0) k =
        calculate_monthly_installment (monthly_sals.getD k 0) + X := by
      simp only [spec_installment, hd1, Option.getD_some]
    have hinst2 : spec_installment (fun j => monthly_sals.getD j 0)
        (fun j => (d2 j).getD 0) k =
        calculate_monthly_installment (monthly_sals.getD k 0) := by
      simp only [spec_installment, hd2, Option.getD_none, add_zero]
    have hle : calculate_monthly_installment (monthly_sals.getD k 0) ≤
        spec_balance loan (fun j => monthly_rates.getD j 0)
            (fun j => monthly_sals.getD j 0) (fun j => (d1 j).getD 0) k +
          spec_interest loan (fun j => monthly_rates.getD j 0)
            (fun j => monthly_sals.getD j 0) (fun j => (d1 j).getD 0) k := by
      rw [hinst1] at hcap
      linarith
    rw [hinst1, hinst2, min_eq_left hle]

/-- Witness for the amended C7 at concrete inputs. -/
theorem C7_discretionary_exact_increase_witness :
    ∃ rs1 ins1 bs1 rs2 ins2 bs2 monthly_sals monthly_rates,
      get_monthly_salary_array [30000] (MonthRef.num 1)
        (MonthRef.name "april") = some monthly_sals ∧
      get_monthly_interest_rate_array [30000] [2] (MonthRef.num 1) =
        some monthly_rates ∧
      simulate_repayment 1000 [2] [30000] (MonthRef.num 1) 1
        (fun j => if j = 0 then some 5 else none) = some (rs1, ins1, bs1) ∧
      simulate_repayment 1000 [2] [30000] (MonthRef.num 1) 1
        (fun _ => none) = some (rs2, ins2, bs2) ∧
      (∀ j, j < 0 →
        rs1.getD j 0 = rs2.getD j 0 ∧ ins1.getD j 0 = ins2.getD j 0 ∧
          bs1.getD j 0 = bs2.getD j 0) ∧
      (spec_installment (fun j => monthly_sals.getD j 0)
          (fun j => ((fun j => if j = 0 then some (5 : ℚ) else none) j).getD 0)
          0 ≤
        spec_balance 1000 (fun j => monthly_rates.getD j 0)
            (fun j => monthly_sals.getD j 0)
            (fun j => ((fun j => if j = 0 then some (5 : ℚ) else none) j).getD 0)
            0 +
          spec_interest 1000 (fun j => monthly_rates.getD j 0)
            (fun j => monthly_sals.getD j 0)
            (fun j => ((fun j => if j = 0 then some (5 : ℚ) else none) j).getD 0)
            0 →
        rs1.getD 0 0 = rs2.getD 0 0 + 5) :=
  C7_discretionary_exact_increase 1000 5 [2] [30000] (MonthRef.num 1) 1 0
    (fun j => if j = 0 then some 5 else none) (fun _ => none) (by decide)
    (by decide) (by decide) (by norm_num) (by norm_num) (by norm_num)
    (by simp) (by simp) (fun j hj => by simp [hj])

end StudentLoan
